import Mathlib

/-!
Verification of the orchestration script `src/train_ocr.py` of the
`made-cv-comp-plates` repository.

The script is pure orchestration: it builds transform pipelines, a model,
a data module, a checkpoint callback, a logger, selects a compute device
and hands control to an external trainer.  We embed it as

* a small inductive type of transform steps and the two pipeline builders
  (`get_train_transform`, `get_valid_transform`);
* argument records for the checkpoint callback, the data module and the
  trainer, filled exactly as in the source;
* a trace of orchestration actions `mainTrace`, listing what `main` does,
  in source order.

Behaviour of external collaborators (pathlib, the trainer framework, the
transforms module that is not part of the sources) is modelled from the
specification and marked as such in doc comments.
-/

/-- Transform steps occurring in `src/train_ocr.py`.  The six augmentation
constructors are the entries of `aug_transforms` in `get_train_transform`
(the `A.OneOf` block counts as one composite step, as in the source list).
`preprocess i` stands for the i-th canonical preprocessing step returned by
the external `get_ocr_valid_transform_list`. -/
inductive TStep where
  | oneOfPerspectiveAffine
  | colorJitter
  | isoNoise
  | motionBlur
  | randomShadow
  | randomSunFlare
  | preprocess (i : Nat)
deriving DecidableEq, Repr

/-- A step is an augmentation step iff it is not a canonical preprocessing
step. -/
def TStep.isAugmentation : TStep → Bool
  | .preprocess _ => false
  | _ => true

/-- Modelled from the spec: `get_ocr_valid_transform_list` lives in
`transforms.py`, which is not among the sources; per the spec it returns the
canonical preprocessing steps (deterministic, no augmentation).  We model it
as an arbitrary-length list of opaque preprocessing steps. -/
def get_ocr_valid_transform_list (nPre : Nat) : List TStep :=
  (List.range nPre).map .preprocess

/-- The augmentation list built inside `get_train_transform`
(src/train_ocr.py lines 24-34), in source order. -/
def aug_transforms : List TStep :=
  [.oneOfPerspectiveAffine, .colorJitter, .isoNoise, .motionBlur,
   .randomShadow, .randomSunFlare]

/-- `get_train_transform` (src/train_ocr.py line 35): the augmentations
concatenated with the canonical preprocessing list. -/
def get_train_transform (nPre : Nat) : List TStep :=
  aug_transforms ++ get_ocr_valid_transform_list nPre

/-- `get_valid_transform` (src/train_ocr.py line 39): the canonical
preprocessing list alone. -/
def get_valid_transform (nPre : Nat) : List TStep :=
  get_ocr_valid_transform_list nPre

/-- The fixed checkpoint-metric name, the local variable
`target_metric_name = "12"` of `main` (src/train_ocr.py line 71). -/
def targetMetricName : String := "12"

/-- The nested `ocr` section of the configuration, with the fields `main`
reads from it. -/
structure OCRConfig where
  image_dir : String
  train_batch_size : Nat
  valid_batch_size : Nat
deriving DecidableEq, Repr

/-- The fields of `TrainConfig` that `main` reads (config_data.py is not
among the sources; the field set is exactly what src/train_ocr.py uses). -/
structure TrainConfig where
  seed : Int
  exp_dir : String
  ocr : OCRConfig
  train_size : Rat
  num_workers : Nat
  check_val_every_n_epoch : Nat
  flush_logs_every_n_steps : Nat
  fast_dev_run : Bool
  precision : Nat
  max_epochs : Nat
  val_check_interval : Nat
deriving DecidableEq, Repr

/-- The keyword arguments of the `callbacks.ModelCheckpoint` call
(src/train_ocr.py lines 78-86). -/
structure ModelCheckpointArgs where
  monitor : String
  dirpath : String
  filename : String
  verbose : Bool
  save_last : Bool
  every_n_train_steps : Nat
  save_top_k : Nat
  mode : String
  save_weights_only : Bool
deriving DecidableEq, Repr

/-- The checkpoint callback arguments exactly as `main` builds them.  The
f-string `f"{{step}}-{{{target_metric_name}:.4f}}"` renders to the template
`\x7bstep\x7d-\x7b12:.4f\x7d`. -/
def checkpointArgs (cfg : TrainConfig) : ModelCheckpointArgs :=
  { monitor := targetMetricName
    dirpath := cfg.exp_dir ++ "/checkpoint"
    filename := "\x7bstep\x7d-\x7b" ++ targetMetricName ++ ":.4f\x7d"
    verbose := true
    save_last := true
    every_n_train_steps := cfg.val_check_interval + 1
    save_top_k := 2
    mode := "max"
    save_weights_only := false }

/-- The keyword arguments of the `OCRDetectionDataModule` call
(src/train_ocr.py lines 57-64). -/
structure DataModuleArgs where
  image_dir : String
  train_batch_size : Nat
  valid_batch_size : Nat
  seed : Int
  train_size : Rat
  num_workers : Nat
  train_transforms : List TStep
  val_transforms : List TStep
deriving DecidableEq, Repr

/-- `gpus = -1 if torch.cuda.is_available() else None`
(src/train_ocr.py line 95).  `some (-1)` requests all accelerators,
`none` is the general-purpose (CPU) fallback. -/
def selectGpus (cudaAvailable : Bool) : Option Int :=
  if cudaAvailable then some (-1) else none

/-- The keyword arguments of the `pl.Trainer` call
(src/train_ocr.py lines 100-115). -/
structure TrainerArgs where
  amp_backend : String
  gpus : Option Int
  auto_select_gpus : Bool
  benchmark : Bool
  check_val_every_n_epoch : Nat
  flush_logs_every_n_steps : Nat
  default_root_dir : String
  deterministic : Bool
  fast_dev_run : Bool
  progress_bar_refresh_rate : Nat
  precision : Nat
  max_epochs : Nat
  val_check_interval : Nat
deriving DecidableEq, Repr

/-- The trainer arguments exactly as `main` builds them. -/
def trainerArgs (cfg : TrainConfig) (cudaAvailable : Bool) : TrainerArgs :=
  { amp_backend := "native"
    gpus := selectGpus cudaAvailable
    auto_select_gpus := true
    benchmark := true
    check_val_every_n_epoch := cfg.check_val_every_n_epoch
    flush_logs_every_n_steps := cfg.flush_logs_every_n_steps
    default_root_dir := cfg.exp_dir
    deterministic := false
    fast_dev_run := cfg.fast_dev_run
    progress_bar_refresh_rate := 5
    precision := cfg.precision
    max_epochs := cfg.max_epochs
    val_check_interval := cfg.val_check_interval }

/-- One orchestration action of `main`.  `assertMetricLogged` is the
assertion (that the monitored metric appears among the wrapper's logged
keys) discussed by the spec; the trace never emits it, which lets us state
its absence. -/
inductive OrchAction where
  | chdirOriginalCwd
  | seedEverything (seed : Int)
  | buildModel
  | buildTrainTransform (pipeline : List TStep)
  | buildValidTransform (pipeline : List TStep)
  | buildDataModule (args : DataModuleArgs)
  | mkdir (path : String) (exist_ok parents : Bool)
  | assertMetricLogged (metric : String)
  | buildTrainModule (targetMetric : String)
  | buildCheckpointCallback (args : ModelCheckpointArgs)
  | buildLRMonitor (loggingInterval : String)
  | buildLogger (dir : String)
  | warnGpuUnavailable
  | buildTrainer (args : TrainerArgs)
  | fit
deriving DecidableEq, Repr

def OrchAction.isFit : OrchAction → Bool
  | .fit => true
  | _ => false

def OrchAction.isSeed : OrchAction → Bool
  | .seedEverything _ => true
  | _ => false

def OrchAction.isBuildModel : OrchAction → Bool
  | .buildModel => true
  | _ => false

def OrchAction.isBuildTrainTransform : OrchAction → Bool
  | .buildTrainTransform _ => true
  | _ => false

def OrchAction.isBuildValidTransform : OrchAction → Bool
  | .buildValidTransform _ => true
  | _ => false

def OrchAction.isBuildDataModule : OrchAction → Bool
  | .buildDataModule _ => true
  | _ => false

def OrchAction.isWarn : OrchAction → Bool
  | .warnGpuUnavailable => true
  | _ => false

def OrchAction.isAssert : OrchAction → Bool
  | .assertMetricLogged _ => true
  | _ => false

def OrchAction.isChdir : OrchAction → Bool
  | .chdirOriginalCwd => true
  | _ => false

/-- The sequence of actions `main` performs (src/train_ocr.py lines 48-117),
in source order.  `nPre` is the length of the external canonical
preprocessing list; `cudaAvailable` is the value of
`torch.cuda.is_available()`. -/
def mainTrace (cfg : TrainConfig) (nPre : Nat) (cudaAvailable : Bool) :
    List OrchAction :=
  [ .chdirOriginalCwd,
    .seedEverything cfg.seed,
    .buildModel,
    .buildTrainTransform (get_train_transform nPre),
    .buildValidTransform (get_valid_transform nPre),
    .buildDataModule
      { image_dir := cfg.ocr.image_dir
        train_batch_size := cfg.ocr.train_batch_size
        valid_batch_size := cfg.ocr.valid_batch_size
        seed := cfg.seed
        train_size := cfg.train_size
        num_workers := cfg.num_workers
        train_transforms := get_train_transform nPre
        val_transforms := get_valid_transform nPre },
    .mkdir (cfg.exp_dir ++ "/checkpoint") true true,
    .buildTrainModule targetMetricName,
    .buildCheckpointCallback (checkpointArgs cfg),
    .buildLRMonitor "step",
    .mkdir (cfg.exp_dir ++ "/logs") true true,
    .buildLogger (cfg.exp_dir ++ "/logs") ]
  ++ (if cudaAvailable then [] else [.warnGpuUnavailable])
  ++ [ .buildTrainer (trainerArgs cfg cudaAvailable), .fit ]

/-- The actions performed strictly before the blocking `fit` call. -/
def actionsBeforeFit (t : List OrchAction) : List OrchAction :=
  t.takeWhile fun a => !a.isFit

/-- Modelled from the spec: `pathlib.Path.mkdir` (external library) with
`exist_ok` set succeeds whether or not the directory already exists; without
it a pre-existing directory is an error. -/
def mkdirSucceeds (alreadyExists : Bool) (exist_ok : Bool) : Bool :=
  !alreadyExists || exist_ok

/-- The seeds passed to global seeding calls in a trace. -/
def seedsUsed (t : List OrchAction) : List Int :=
  t.filterMap fun a =>
    match a with
    | .seedEverything s => some s
    | _ => none

/-- The seeds passed to data-module constructions in a trace. -/
def dataModuleSeeds (t : List OrchAction) : List Int :=
  t.filterMap fun a =>
    match a with
    | .buildDataModule d => some d.seed
    | _ => none

/-- The target-metric names passed to training-wrapper constructions. -/
def trainModuleMetrics (t : List OrchAction) : List String :=
  t.filterMap fun a =>
    match a with
    | .buildTrainModule m => some m
    | _ => none

/-- The monitored metric names of checkpoint callbacks built in a trace. -/
def monitoredMetrics (t : List OrchAction) : List String :=
  t.filterMap fun a =>
    match a with
    | .buildCheckpointCallback args => some args.monitor
    | _ => none

/-- Modelled from the spec: the external trainer fires the checkpoint
callback's save only when the monitored metric appears among the wrapper's
logged keys; on a mismatch the callback silently never fires.
`saveOpportunities` counts the cadence points at which a save could
happen. -/
def savesFired (monitor : String) (loggedKeys : List String)
    (saveOpportunities : Nat) : Nat :=
  if loggedKeys.contains monitor then saveOpportunities else 0

/-- Modelled from the spec: the errors the external trainer surfaces during
fit are the mid-training errors (data loading failure, numerical
divergence, out-of-memory, ...) only; a metric-name mismatch is a silent
failure mode and surfaces no error, whatever the monitor and logged keys
are, so it contributes nothing to this list. -/
def fitSurfacedErrors (monitor : String) (loggedKeys : List String)
    (midTrainingErrors : List String) : List String :=
  midTrainingErrors

/-- Modelled from the spec: the process exits 0 on successful fit
completion and non-zero exactly when the trainer surfaced an error. -/
def runExitCode (surfacedErrors : List String) : Nat :=
  if surfacedErrors.isEmpty then 0 else 1

/-- Decimal digit character. -/
def digitChar (d : Nat) : Char := Char.ofNat (48 + d % 10)

/-- Four decimal digits of `n` (zero-padded), as in Python `%.4f`
formatting of the fractional part. -/
def pad4 (n : Nat) : String :=
  String.mk [digitChar (n / 1000), digitChar (n / 100), digitChar (n / 10),
             digitChar n]

/-- A metric value given in ten-thousandths, formatted to 4 decimal
places. -/
def fmt4 (tenThousandths : Nat) : String :=
  toString (tenThousandths / 10000) ++ "." ++ pad4 (tenThousandths % 10000)

/-- Modelled from the spec: checkpoint filename rendering is performed by
the external trainer, which substitutes the current step number for
`\x7bstep\x7d` and the monitored metric value formatted to 4 decimal places
for `\x7b12:.4f\x7d` in the configured template, then appends the `.ckpt`
extension.  Metric values are represented exactly, in ten-thousandths. -/
def renderCheckpointFilename (step : Nat) (metricTenThousandths : Nat) :
    String :=
  toString step ++ "-" ++ fmt4 metricTenThousandths ++ ".ckpt"

/-- A concrete configuration used for concrete evaluations. -/
def sampleConfig : TrainConfig :=
  { seed := 42
    exp_dir := "exp"
    ocr := { image_dir := "images", train_batch_size := 32,
             valid_batch_size := 64 }
    train_size := 9 / 10
    num_workers := 4
    check_val_every_n_epoch := 1
    flush_logs_every_n_steps := 100
    fast_dev_run := false
    precision := 16
    max_epochs := 10
    val_check_interval := 500 }

/-- C1: for every run, the validation transform pipeline is a strict suffix
of the training transform pipeline — the training pipeline equals the
augmentation steps concatenated with exactly the validation pipeline, and no
augmentation-only step appears in the validation pipeline. -/
theorem valid_pipeline_strict_suffix_of_train (nPre : Nat) :
    get_train_transform nPre = aug_transforms ++ get_valid_transform nPre
    ∧ (get_valid_transform nPre).IsSuffix (get_train_transform nPre)
    ∧ get_train_transform nPre ≠ get_valid_transform nPre
    ∧ (get_valid_transform nPre).all (fun s => !s.isAugmentation) = true := by
  refine ⟨rfl, ⟨aug_transforms, rfl⟩, ?_, ?_⟩
  · intro h
    have hlen := congrArg List.length h
    simp [get_train_transform, get_valid_transform, aug_transforms,
      get_ocr_valid_transform_list] at hlen
    omega
  · simp [get_valid_transform, get_ocr_valid_transform_list, List.all_eq_true,
      TStep.isAugmentation]

/-- C2: the checkpoint callback monitors the fixed metric name, saves every
(validation-check interval + 1) training steps, retains the top 2
checkpoints under maximize comparison plus the most recent one, and saves
full training state rather than weights only. -/
theorem checkpoint_callback_policy (cfg : TrainConfig) :
    (checkpointArgs cfg).monitor = targetMetricName
    ∧ (checkpointArgs cfg).every_n_train_steps = cfg.val_check_interval + 1
    ∧ (checkpointArgs cfg).save_top_k = 2
    ∧ (checkpointArgs cfg).mode = "max"
    ∧ (checkpointArgs cfg).save_last = true
    ∧ (checkpointArgs cfg).save_weights_only = false :=
  ⟨rfl, rfl, rfl, rfl, rfl, rfl⟩

/-- C3 counterexample: at a concrete configuration the orchestrator performs
no assertion that the monitored checkpoint metric appears among the training
wrapper's logged keys — contrary to the claim, no such guard exists. -/
theorem no_metric_assertion_at_sample_config :
    (mainTrace sampleConfig 3 false).all (fun a => !a.isAssert) = true := by
  decide

/-- C3 (amended): the orchestrator performs no metric-membership assertion;
the mismatch is silent — with the monitored name "12" absent from the
wrapper's logged keys, the (spec-modelled) checkpoint save never fires,
while the run still reaches the fit call, the mismatch surfaces no error,
and absent any mid-training error the process exits 0. -/
theorem no_assertion_and_silent_mismatch (cfg : TrainConfig) (nPre : Nat)
    (cuda : Bool) (loggedKeys : List String) (opportunities : Nat)
    (h : targetMetricName ∉ loggedKeys) :
    ((mainTrace cfg nPre cuda).countP fun a => a.isAssert) = 0
    ∧ savesFired targetMetricName loggedKeys opportunities = 0
    ∧ OrchAction.fit ∈ mainTrace cfg nPre cuda
    ∧ fitSurfacedErrors targetMetricName loggedKeys [] = []
    ∧ runExitCode (fitSurfacedErrors targetMetricName loggedKeys []) = 0 := by
  refine ⟨?_, ?_, ?_, rfl, rfl⟩
  · cases cuda <;>
      simp [mainTrace, OrchAction.isAssert, List.countP_cons,
        List.countP_append]
  · simp [savesFired, h]
  · cases cuda <;> simp [mainTrace]

/-- C3 witness: the amended statement at a concrete configuration and a
concrete logged-key set that does not contain "12". -/
theorem no_assertion_and_silent_mismatch_witness :
    targetMetricName ∉ (["CER", "loss"] : List String)
    ∧ (((mainTrace sampleConfig 3 false).countP fun a => a.isAssert) = 0
       ∧ savesFired targetMetricName ["CER", "loss"] 7 = 0
       ∧ OrchAction.fit ∈ mainTrace sampleConfig 3 false
       ∧ fitSurfacedErrors targetMetricName ["CER", "loss"] [] = []
       ∧ runExitCode (fitSurfacedErrors targetMetricName ["CER", "loss"] [])
           = 0) :=
  ⟨by decide,
   no_assertion_and_silent_mismatch sampleConfig 3 false ["CER", "loss"] 7
     (by decide)⟩

/-- C4: the checkpoint filename template configured by the orchestrator is
`\x7bstep\x7d-\x7b12:.4f\x7d`; rendered (spec-modelled) filenames encode the
step number and the metric value to exactly 4 decimal places, e.g. step 1000
with metric 0.8421 yields `1000-0.8421.ckpt`. -/
theorem checkpoint_filename_format (cfg : TrainConfig) :
    (checkpointArgs cfg).filename
        = "\x7bstep\x7d-\x7b" ++ targetMetricName ++ ":.4f\x7d"
    ∧ renderCheckpointFilename 1000 8421 = "1000-0.8421.ckpt"
    ∧ (∀ step m, renderCheckpointFilename step m
        = toString step ++ "-" ++ fmt4 m ++ ".ckpt")
    ∧ (∀ m, fmt4 m = toString (m / 10000) ++ "." ++ pad4 (m % 10000))
    ∧ (∀ m, (pad4 m).length = 4) := by
  refine ⟨rfl, by decide, fun step m => rfl, fun m => rfl, fun m => rfl⟩

/-- C5: with no accelerator available the orchestrator selects the
general-purpose fallback (gpus = None), emits exactly one degradation
warning and still proceeds to fit; with an accelerator available it
requests all accelerators (gpus = -1) and emits no warning. -/
theorem gpu_selection_and_warning (cfg : TrainConfig) (nPre : Nat) :
    (selectGpus false = none
      ∧ ((mainTrace cfg nPre false).countP fun a => a.isWarn) = 1
      ∧ OrchAction.fit ∈ mainTrace cfg nPre false
      ∧ (trainerArgs cfg false).gpus = none)
    ∧ (selectGpus true = some (-1)
      ∧ ((mainTrace cfg nPre true).countP fun a => a.isWarn) = 0
      ∧ OrchAction.fit ∈ mainTrace cfg nPre true
      ∧ (trainerArgs cfg true).gpus = some (-1)) := by
  refine ⟨⟨rfl, ?_, ?_, rfl⟩, ⟨rfl, ?_, ?_, rfl⟩⟩ <;>
    simp [mainTrace, OrchAction.isWarn, List.countP_cons, List.countP_append]

/-- C6: the checkpoint/ and logs/ subdirectories of the experiment
directory are both created before the blocking fit call, with flags that
make the creation idempotent (exist_ok and parents set), and (spec-modelled
pathlib behaviour) a pre-existing directory does not cause failure. -/
theorem experiment_dirs_created_before_fit (cfg : TrainConfig) (nPre : Nat)
    (cuda : Bool) :
    OrchAction.mkdir (cfg.exp_dir ++ "/checkpoint") true true
        ∈ actionsBeforeFit (mainTrace cfg nPre cuda)
    ∧ OrchAction.mkdir (cfg.exp_dir ++ "/logs") true true
        ∈ actionsBeforeFit (mainTrace cfg nPre cuda)
    ∧ (∀ alreadyExists, mkdirSucceeds alreadyExists true = true) := by
  refine ⟨?_, ?_, fun e => by cases e <;> rfl⟩ <;>
    cases cuda <;>
      simp [actionsBeforeFit, mainTrace, OrchAction.isFit, List.takeWhile_cons]

/-- C7: global seeding happens exactly once per run, and strictly before
the model, the transform pipelines and the data module are constructed. -/
theorem seeding_once_before_consumers (cfg : TrainConfig) (nPre : Nat)
    (cuda : Bool) :
    ((mainTrace cfg nPre cuda).countP fun a => a.isSeed) = 1
    ∧ ((mainTrace cfg nPre cuda).findIdx fun a => a.isSeed)
        < ((mainTrace cfg nPre cuda).findIdx fun a => a.isBuildModel)
    ∧ ((mainTrace cfg nPre cuda).findIdx fun a => a.isSeed)
        < ((mainTrace cfg nPre cuda).findIdx fun a => a.isBuildTrainTransform)
    ∧ ((mainTrace cfg nPre cuda).findIdx fun a => a.isSeed)
        < ((mainTrace cfg nPre cuda).findIdx fun a => a.isBuildValidTransform)
    ∧ ((mainTrace cfg nPre cuda).findIdx fun a => a.isSeed)
        < ((mainTrace cfg nPre cuda).findIdx fun a => a.isBuildDataModule) := by
  cases cuda <;>
    simp [mainTrace, List.findIdx_cons, List.countP_cons, List.countP_append,
      OrchAction.isSeed, OrchAction.isBuildModel,
      OrchAction.isBuildTrainTransform, OrchAction.isBuildValidTransform,
      OrchAction.isBuildDataModule]

/-- C8: the very first action of the orchestrator (after configuration
loading, which happens in the decorator before the function body) is
resetting the working directory to the original invocation directory, and
this reset happens exactly once. -/
theorem chdir_is_first_action (cfg : TrainConfig) (nPre : Nat)
    (cuda : Bool) :
    (mainTrace cfg nPre cuda).head? = some .chdirOriginalCwd
    ∧ ((mainTrace cfg nPre cuda).countP fun a => a.isChdir) = 1 := by
  cases cuda <;>
    simp [mainTrace, OrchAction.isChdir, List.countP_cons, List.countP_append]

/-- C9: the global seeding call and the data module receive the same
configured seed: both seed lists extracted from the trace are exactly
[cfg.seed]. -/
theorem single_seed_source (cfg : TrainConfig) (nPre : Nat) (cuda : Bool) :
    seedsUsed (mainTrace cfg nPre cuda) = [cfg.seed]
    ∧ dataModuleSeeds (mainTrace cfg nPre cuda) = [cfg.seed] := by
  cases cuda <;>
    simp [seedsUsed, dataModuleSeeds, mainTrace, List.filterMap_cons,
      List.filterMap_append]

/-- C10: the training wrapper's target metric, the checkpoint callback's
monitored metric, and the metric key embedded in the filename template all
come from the single fixed name "12". -/
theorem metric_name_single_source (cfg : TrainConfig) (nPre : Nat)
    (cuda : Bool) :
    targetMetricName = "12"
    ∧ trainModuleMetrics (mainTrace cfg nPre cuda) = [targetMetricName]
    ∧ monitoredMetrics (mainTrace cfg nPre cuda) = [targetMetricName]
    ∧ (checkpointArgs cfg).filename
        = "\x7bstep\x7d-\x7b" ++ targetMetricName ++ ":.4f\x7d" := by
  refine ⟨rfl, ?_, ?_, rfl⟩ <;>
    cases cuda <;>
      simp [trainModuleMetrics, monitoredMetrics, mainTrace, checkpointArgs,
        List.filterMap_cons, List.filterMap_append]
